import Mathlib

/-!
Shallow embedding of the Telegram expense-tracker webhook
(`netlify/functions/webhook.js`) and proofs about its ledger operations,
YTD aggregation and request dispatcher.

Cells read back from the spreadsheet layer are modelled as `String`
(the sheets client returns formatted cell values as strings; the source
applies `parseFloat` / `new Date(...)` to them on read).  Host-environment
functions (`parseInt`, `parseFloat`, `Date` year extraction, number
printing) are modelled by the `js*` definitions below, each documented
with the value shapes for which the model is exact.
-/

namespace Webhook

/-- Character is one of the common ASCII whitespace characters skipped by
the numeric host parsers. -/
def isWs (c : Char) : Bool :=
  c == ' ' || c == '\t' || c == '\n' || c == '\r'

/-- Value of one ASCII decimal digit. -/
def digitVal (c : Char) : Nat := c.toNat - '0'.toNat

/-- Value of a list of ASCII decimal digits, most significant first. -/
def decDigitsVal (cs : List Char) : Nat :=
  cs.foldl (fun acc c => acc * 10 + digitVal c) 0

/-- Hexadecimal digit test. -/
def isHexDigit (c : Char) : Bool :=
  c.isDigit || ('a' ≤ c && c ≤ 'f') || ('A' ≤ c && c ≤ 'F')

/-- Value of one hexadecimal digit. -/
def hexDigitVal (c : Char) : Nat :=
  if c.isDigit then digitVal c
  else if 'a' ≤ c && c ≤ 'f' then c.toNat - 'a'.toNat + 10
  else c.toNat - 'A'.toNat + 10

/-- Value of a list of hexadecimal digits, most significant first. -/
def hexDigitsVal (cs : List Char) : Nat :=
  cs.foldl (fun acc c => acc * 16 + hexDigitVal c) 0

/-- Models the host `parseInt(s)` (radix unspecified): skip leading
whitespace, optional sign, then either a `0x`/`0X`-prefixed run of hex
digits or a run of decimal digits; parsing stops at the first other
character.  `none` models the `NaN` result. -/
def jsParseIntChars (cs : List Char) : Option Int :=
  let cs1 := cs.dropWhile isWs
  let signAndRest : Int × List Char :=
    match cs1 with
    | '-' :: rest => (-1, rest)
    | '+' :: rest => (1, rest)
    | _ => (1, cs1)
  let sign := signAndRest.1
  match signAndRest.2 with
  | '0' :: 'x' :: rest =>
      let ds := rest.takeWhile isHexDigit
      if ds.isEmpty then none else some (sign * (hexDigitsVal ds : Int))
  | '0' :: 'X' :: rest =>
      let ds := rest.takeWhile isHexDigit
      if ds.isEmpty then none else some (sign * (hexDigitsVal ds : Int))
  | rest =>
      let ds := rest.takeWhile Char.isDigit
      if ds.isEmpty then none else some (sign * (decDigitsVal ds : Int))

/-- The `parseInt` model on a whole string; see `jsParseIntChars`. -/
def jsParseInt (s : String) : Option Int := jsParseIntChars s.data

/-- Models the host `parseFloat(s)` on plain (non-exponent, finite)
decimal literals: skip leading whitespace, optional sign, decimal digits,
optional fraction after a dot; parsing stops at the first other
character.  `none` models the `NaN` result.  Exponent and `Infinity`
forms are outside the cell-value shapes this ledger stores. -/
def jsParseFloatChars (cs : List Char) : Option ℚ :=
  let cs1 := cs.dropWhile isWs
  let signAndRest : ℚ × List Char :=
    match cs1 with
    | '-' :: rest => (-1, rest)
    | '+' :: rest => (1, rest)
    | _ => (1, cs1)
  let sign := signAndRest.1
  let intDs := signAndRest.2.takeWhile Char.isDigit
  let afterInt := signAndRest.2.drop intDs.length
  let fracDs :=
    match afterInt with
    | '.' :: r => r.takeWhile Char.isDigit
    | _ => []
  if intDs.isEmpty && fracDs.isEmpty then none
  else some (sign * ((decDigitsVal intDs : ℚ) +
    (decDigitsVal fracDs : ℚ) / (10 ^ fracDs.length : ℚ)))

/-- The `parseFloat` model on a whole string; see `jsParseFloatChars`. -/
def jsParseFloat (s : String) : Option ℚ := jsParseFloatChars s.data

/-- Split a character list at every occurrence of the separator
character, keeping empty segments (the behaviour of the JS
`split` with a one-character separator). -/
def jsSplitCharsAux (sep : Char) : List Char → List (List Char)
  | [] => [[]]
  | c :: rest =>
      let r := jsSplitCharsAux sep rest
      if c = sep then [] :: r
      else
        match r with
        | [] => [[c]]
        | h :: tl => (c :: h) :: tl

/-- Models the JS `s.split(sep)` for a one-character separator. -/
def jsSplitChar (sep : Char) (s : String) : List String :=
  (jsSplitCharsAux sep s.data).map (fun l => String.mk l)

/-- Models the JS `s.startsWith(pre)`. -/
def jsStartsWith (s pre : String) : Bool :=
  pre.data.isPrefixOf s.data

/-- Models `new Date(s).getFullYear()` for the ISO-style `YYYY-...`
date strings this ledger stores (the program itself always writes
`YYYY-MM-DD`).  `none` models an invalid date, whose `NaN` year is
never strictly equal to the current year. -/
def jsDateYear (s : String) : Option Int :=
  match (jsSplitChar '-' s).head? with
  | some y => if y.length = 4 then (y.toNat?).map Int.ofNat else none
  | none => none

/-- Prints a number into a sheet cell / message payload.  Exact for
integers; non-integer rationals are printed as `num/den`, a shape no
verified property inspects (the program never reads back a row it has
itself appended within the properties below). -/
def jsNumToStr (q : ℚ) : String :=
  if q.den = 1 then toString q.num
  else toString q.num ++ "/" ++ toString q.den

/-- Simplified model of `Number.toFixed(2)` used only inside the `/ytd`
reply payload, which no verified property inspects: the total amount of
cents, printed as an integer. -/
def toFixed2 (q : ℚ) : String :=
  toString (Int.floor (q * 100))

/-- One data row of a sheet, as read back through `row.get`: every cell
is a string, `""` standing for an empty or absent cell (`row.get`
returning `undefined` is only ever used behind `|| ''`). -/
structure Row where
  date : String := ""
  vendor : String := ""
  category : String := ""
  amount : String := ""
  businessType : String := ""
  entity : String := ""
  deductiblePct : String := ""
  taxNotes : String := ""
  description : String := ""
  workDescription : String := ""
  receiptUrl : String := ""
deriving DecidableEq, Repr, Inhabited

/-- The spreadsheet document: `doc.sheetsByTitle`, an association of
sheet titles (unique) to their data rows. -/
def Doc := List (String × List Row)

instance : DecidableEq Doc := by
  unfold Doc
  infer_instance

instance : Inhabited Doc := ⟨([] : List (String × List Row))⟩

/-- Lookup of `doc.sheetsByTitle[name]`. -/
def lookupSheet (d : Doc) (name : String) : Option (List Row) :=
  (List.find? (fun p => p.1 == name) d).map (fun p => p.2)

/-- Replace the rows of the sheet titled `name` (titles are unique). -/
def setSheet (d : Doc) (name : String) (rows : List Row) : Doc :=
  List.map (fun p => if p.1 == name then (p.1, rows) else p) d

/-- Resolution `doc.sheetsByTitle['Sheet1'] || doc.sheetsByTitle['Master Sheet']`,
the main-ledger resolution shared by `getRecentEntries` and `editEntry`,
together with the title of the sheet found. -/
def resolveMainSheet (d : Doc) : Option (String × List Row) :=
  match lookupSheet d "Sheet1" with
  | some rows => some ("Sheet1", rows)
  | none =>
      match lookupSheet d "Master Sheet" with
      | some rows => some ("Master Sheet", rows)
      | none => none

/-- The structured `{success, error}` result returned by the ledger
operations. -/
structure OpResult where
  success : Bool
  error : Option String
deriving DecidableEq, Repr

/-- Observable external calls made while handling one request. -/
inductive Effect where
  | sendMessage (chatId msg : String)
  | telegramGetFile
  | visionOcr
  | storageUpload
  | claude (description : String)
  | ledgerRead (sheet : String)
  | ledgerAppend (sheet : String)
  | ledgerSave
deriving DecidableEq, Repr, BEq

/-- The typed expense record produced by the Categorization Engine
(`processExpenseWithAI`'s parsed JSON). -/
structure ExpenseData where
  amount : ℚ
  vendor : String
  category : String
  businessType : String
  entityType : String
  taxDeductible : Bool := true
  deductibilityPercentage : ℚ
  taxNotes : String := ""
  suggestedDescription : String := ""
  workDescription : String := ""
  receiptUrl : String := ""
deriving DecidableEq, Repr

/-- The row written by `addExpenseToSheet` for an expense record on a
given day. -/
def rowOfExpense (today : String) (e : ExpenseData) : Row :=
  { date := today
    vendor := e.vendor
    category := e.category
    amount := jsNumToStr e.amount
    businessType := e.businessType
    entity := e.entityType
    deductiblePct := jsNumToStr e.deductibilityPercentage
    taxNotes := e.taxNotes
    description := e.suggestedDescription
    workDescription := e.workDescription
    receiptUrl := e.receiptUrl }

/-- Models `addExpenseToSheet(expenseData, sheetName)`: resolve `sheetName`,
falling back to `'Master Sheet'`; fail if neither exists; otherwise
append one row built from the record, dated `today`. -/
def addExpenseToSheet (today : String) (d : Doc) (e : ExpenseData)
    (sheetName : String) : OpResult × Doc × List Effect :=
  let target : Option (String × List Row) :=
    match lookupSheet d sheetName with
    | some rows => some (sheetName, rows)
    | none =>
        match lookupSheet d "Master Sheet" with
        | some rows => some ("Master Sheet", rows)
        | none => none
  match target with
  | none =>
      (⟨false, some ("Sheet \"" ++ sheetName ++ "\" not found")⟩, d, [])
  | some (name, rows) =>
      (⟨true, none⟩, setSheet d name (rows ++ [rowOfExpense today e]),
        [Effect.ledgerAppend name])

/-- The per-row update performed by `editEntry`: `description` is
overwritten; `notes` is appended to the `Work Description` cell with the
`" | "` separator when that cell is non-empty; any other field name
leaves the row unchanged (the row is still saved). -/
def updateRowField (field newValue : String) (row : Row) : Row :=
  if field == "description" then { row with description := newValue }
  else if field == "notes" then
    let existingNotes := row.workDescription
    let updatedNotes :=
      if existingNotes ≠ "" then existingNotes ++ " | " ++ newValue
      else newValue
    { row with workDescription := updatedNotes }
  else row

/-- The not-found error text of `editEntry`. -/
def entryNotFoundMsg (entryNumber : Int) : String :=
  "Entry #" ++ toString entryNumber ++
    " not found. Use /recent to see available entries."

/-- Models `editEntry(entryNumber, field, newValue)`: resolve the main ledger
sheet, reject a 1-based index outside `1..rows.length` with a not-found
error and no mutation, otherwise update the addressed row and save it. -/
def editEntry (d : Doc) (entryNumber : Int) (field newValue : String) :
    OpResult × Doc × List Effect :=
  match resolveMainSheet d with
  | none => (⟨false, some "Sheet not found"⟩, d, [])
  | some (name, rows) =>
      if entryNumber < 1 ∨ entryNumber > (rows.length : Int) then
        (⟨false, some (entryNotFoundMsg entryNumber)⟩, d,
          [Effect.ledgerRead name])
      else
        let i := (entryNumber - 1).toNat
        let row' := updateRowField field newValue (rows.getD i default)
        (⟨true, none⟩, setSheet d name (rows.set i row'),
          [Effect.ledgerRead name, Effect.ledgerSave])

/-- Row filter of `calculateYTDPayments`: the date's year is the current
year and the category is exactly `"Contract Labor"`. -/
def ytdRowMatch (y : Int) (r : Row) : Bool :=
  (jsDateYear r.date == some y) && (r.category == "Contract Labor")

/-- Amount contributed by one row: `parseFloat(row.get('Amount')) || 0`,
so an unparseable amount contributes `0`. -/
def rowAmount (r : Row) : ℚ := (jsParseFloat r.amount).getD 0

/-- The `rows.forEach` accumulation loop of `calculateYTDPayments`. -/
def ytdLoop (y : Int) (rows : List Row) : ℚ :=
  rows.foldl (fun acc r => if ytdRowMatch y r then acc + rowAmount r else acc) 0

/-- Models `calculateYTDPayments()` plus its observable ledger read: `0` with
no read when the `'Family LLC'` sheet is absent, otherwise the loop
total over its rows. -/
def calculateYTDPaymentsE (d : Doc) (y : Int) : ℚ × List Effect :=
  match lookupSheet d "Family LLC" with
  | none => (0, [])
  | some rows => (ytdLoop y rows, [Effect.ledgerRead "Family LLC"])

/-- The value of `calculateYTDPayments()`. -/
def calculateYTDPayments (d : Doc) (y : Int) : ℚ :=
  (calculateYTDPaymentsE d y).1

/-- Written from the specification's words, for comparison with the
source loop: the sum of `amount` over exactly the rows whose date parses
to the current year and whose category is `"Contract Labor"`,
unparseable amounts contributing `0`. -/
def specYTDSum (y : Int) (rows : List Row) : ℚ :=
  ((rows.filter (ytdRowMatch y)).map rowAmount).sum

/-- One recent-entry summary produced by `getRecentEntries`. -/
structure RecentEntry where
  date : String
  vendor : String
  category : String
  amount : String
  deductiblePct : String
  description : String
deriving DecidableEq, Repr

/-- Models `getRecentEntries(limit)`: the last `limit` rows of the main ledger,
most recent first; `[]` (with no read) when no main sheet exists. -/
def getRecentEntries (d : Doc) (limit : Nat) :
    List RecentEntry × List Effect :=
  match resolveMainSheet d with
  | none => ([], [])
  | some (name, rows) =>
      let recentRows := (rows.drop (rows.length - limit)).reverse
      (recentRows.map (fun r =>
        { date := r.date, vendor := r.vendor, category := r.category
          amount := r.amount, deductiblePct := r.deductiblePct
          description := r.description }),
        [Effect.ledgerRead name])

/-- The environment of one invocation: configuration and the outcomes
the external collaborators would produce for this request. -/
structure Env where
  authorizedChatIds : List String
  today : String
  currentYear : Int
  /-- Outcome of `processExpenseWithAI` per description; `none` is the
  uniform categorization-unavailable result. -/
  claude : String → Option ExpenseData
  /-- `result.textAnnotations` of the Vision call for the photo of this
  request; `none` models the call throwing (caught, collapsing to the
  same no-text result). -/
  ocrDetections : Option (List String)
  /-- Result of `saveReceiptToIceDrive` if it is invoked. -/
  uploadResult : Option String
  /-- Whether the Telegram `getFile` call returns `ok`. -/
  telegramFileOk : Bool

/-- An inbound Telegram message, after `JSON.parse`: the chat id is
already stringified, and `photo`, when present, is the list of photo
sizes (represented by their `file_id`s); `some []` models a present but
empty array, which is truthy in the source's `!message.photo` test. -/
structure Msg where
  chatId : String
  text : Option String := none
  caption : Option String := none
  photo : Option (List String) := none
deriving DecidableEq, Repr

/-- The parsed request body: `malformed` models `JSON.parse` (or the
`message.chat.id` access) throwing, the only way an exception escapes to
the outer handler boundary; `noMessage` models a body without a
`message` field. -/
inductive ReqBody where
  | malformed (err : String)
  | noMessage
  | message (m : Msg)
deriving DecidableEq, Repr

/-- HTTP method of the inbound request. -/
inductive Method where
  | OPTIONS
  | GET
  | POST
  | other
deriving DecidableEq, Repr

/-- An inbound HTTP event. -/
structure Event where
  httpMethod : Method
  body : ReqBody
deriving DecidableEq, Repr

/-- The response body: a `{status}` JSON object, an `{error}` JSON
object, the GET health payload (whose fields no verified property
inspects), or the empty OPTIONS body. -/
inductive RespBody where
  | empty
  | health
  | statusMsg (s : String)
  | errorMsg (s : String)
deriving DecidableEq, Repr

/-- The HTTP response. -/
structure HttpResponse where
  statusCode : Nat
  body : RespBody
deriving DecidableEq, Repr

/-- The `/start` reply payload. -/
def startReply : String :=
  "🏢 <b>S-Corp Expense Tracker Ready!</b>\n\n" ++
  "💰 <b>Add Expenses:</b>\n" ++
  "• Text: \"Client lunch $85\"\n" ++
  "• Photo: Send receipt images 📸\n\n" ++
  "📊 <b>View & Edit:</b>\n" ++
  "• /recent - View recent expenses\n" ++
  "• /edit [#] [new description] - Edit entry\n" ++
  "• /note [#] [additional notes] - Add notes\n" ++
  "• /ytd - Year-to-date totals\n\n" ++
  "I'll categorize everything for S-Corp tax rules!"

/-- The fixed 2025 standard-deduction policy constant. -/
def STANDARD_DEDUCTION_2025 : ℚ := 14600

/-- The `/ytd` reply payload. -/
def ytdReply (ytdTotal : ℚ) : String :=
  "💰 <b>Son's YTD Payments:</b>\n" ++
  "Paid: $" ++ toFixed2 ytdTotal ++ "\n" ++
  "Remaining under std deduction: $" ++
    toFixed2 (STANDARD_DEDUCTION_2025 - ytdTotal) ++ "\n" ++
  "Standard deduction limit: $" ++ jsNumToStr STANDARD_DEDUCTION_2025

/-- One formatted block of the `/recent` reply. -/
def recentLine (idx : Nat) (e : RecentEntry) : String :=
  "<b>" ++ toString (idx + 1) ++ ".</b> " ++ e.date ++ " - " ++
    e.vendor ++ " - $" ++ e.amount ++ "\n" ++
  "   📂 " ++ e.category ++ " (" ++ e.deductiblePct ++
    "% deductible)\n" ++
  "   📝 " ++ e.description ++ "\n\n"

/-- The `/recent` reply payload for a non-empty entry list. -/
def recentReply (entries : List RecentEntry) : String :=
  (entries.enum.foldl (fun acc p => acc ++ recentLine p.1 p.2)
    "📋 <b>Recent Expenses:</b>\n\n") ++
  "💡 Use /edit [#] or /note [#] to modify entries"

/-- Usage reply of the `/edit` command. -/
def editUsageReply : String :=
  "❌ Usage: /edit [number] [new description]\n" ++
  "Example: /edit 3 Updated expense description"

/-- Usage reply of the `/note` command. -/
def noteUsageReply : String :=
  "❌ Usage: /note [number] [additional notes]\n" ++
  "Example: /note 3 This was for the client meeting"

/-- The OCR-specific failure reply. -/
def ocrFailureReply : String :=
  "❌ Could not extract text from receipt. " ++
  "Please try a clearer photo or enter manually."

/-- The categorization-failure reply of the receipt pipeline. -/
def categorizationFailureReply : String :=
  "❌ Could not categorize the receipt. Please try entering manually."

/-- The categorization-failure reply of the plain-text pipeline. -/
def textFailureReply : String :=
  "❌ Sorry, I couldn't process that expense. Please try again."

/-- The `{text, imageUrl}` result of `processReceiptOCR`. -/
structure OcrResult where
  text : Option String
  imageUrl : Option String
deriving DecidableEq, Repr

/-- Models `processReceiptOCR`: run Vision text detection; with no detections
(or a thrown, caught error) return `{text: null, imageUrl: null}`
without invoking the storage upload; otherwise upload the image
(best-effort) and return the first detection's full text together with
the upload's outcome. -/
def processReceiptOCR (env : Env) : OcrResult × List Effect :=
  match env.ocrDetections with
  | none => (⟨none, none⟩, [Effect.visionOcr])
  | some detections =>
      if detections.isEmpty then (⟨none, none⟩, [Effect.visionOcr])
      else
        (⟨some (detections.headD ""), env.uploadResult⟩,
          [Effect.visionOcr, Effect.storageUpload])

/-- The `✅ Expense Added!` reply of the plain-text pipeline. -/
def expenseAddedReply (e : ExpenseData) : String :=
  "✅ <b>Expense Added!</b>\n\n" ++
  "💰 Amount: $" ++ jsNumToStr e.amount ++ "\n" ++
  "🏪 Vendor: " ++ e.vendor ++ "\n" ++
  "📂 Category: " ++ e.category ++ "\n" ++
  "🏢 Entity: " ++ e.entityType.toUpper ++ "\n" ++
  "📊 Tax Deductible: " ++ jsNumToStr e.deductibilityPercentage ++ "%\n" ++
  "📝 Notes: " ++ e.taxNotes

/-- The `📸 Receipt Processed!` reply of the receipt pipeline. -/
def receiptProcessedReply (e : ExpenseData) (caption : String)
    (imageUrl : Option String) (ocrText : String) : String :=
  let base :=
    "📸 <b>Receipt Processed!</b>\n\n" ++
    "💰 Amount: " ++ jsNumToStr e.amount ++ "\n" ++
    "🏪 Vendor: " ++ e.vendor ++ "\n" ++
    "📂 Category: " ++ e.category ++ "\n" ++
    "🏢 Entity: " ++ e.entityType.toUpper ++ "\n" ++
    "📊 Tax Deductible: " ++ jsNumToStr e.deductibilityPercentage ++
      "%\n" ++
    "📝 Notes: " ++ e.taxNotes
  let withCaption :=
    if caption.trim ≠ "" then
      base ++ "\n💬 Your notes: \"" ++ caption.trim ++
        "\" (added to description)"
    else base
  let withUrl :=
    match imageUrl with
    | some u =>
        if jsStartsWith u "https://webdav.icedrive.io" then
          withCaption ++ "\n📎 Receipt stored: <a href=\"" ++ u ++
            "\">View in IceDrive</a>"
        else withCaption ++ "\n📎 Receipt saved to IceDrive"
    | none => withCaption
  withUrl ++ "\n\n📋 Extracted: " ++ (ocrText.take 60) ++ "..."

/-- The `/edit <n> <text>` branch of the dispatcher. -/
def editBranch (d : Doc) (chatId text : String) :
    HttpResponse × Doc × List Effect :=
  let parts := jsSplitChar ' ' text
  let entryNumber := jsParseInt (parts.getD 1 "")
  let newDescription := String.intercalate " " (parts.drop 2)
  match entryNumber with
  | none =>
      (⟨200, .statusMsg "Invalid edit command"⟩, d,
        [Effect.sendMessage chatId editUsageReply])
  | some k =>
      if k = 0 ∨ newDescription = "" then
        (⟨200, .statusMsg "Invalid edit command"⟩, d,
          [Effect.sendMessage chatId editUsageReply])
      else
        let r := editEntry d k "description" newDescription
        if r.1.success then
          (⟨200, .statusMsg "Edit processed"⟩, r.2.1,
            r.2.2 ++ [Effect.sendMessage chatId
              ("✅ Updated entry #" ++ toString k ++ " description")])
        else
          (⟨200, .statusMsg "Edit processed"⟩, r.2.1,
            r.2.2 ++ [Effect.sendMessage chatId
              ("❌ " ++ (r.1.error.getD ""))])

/-- The `/note <n> <text>` branch of the dispatcher. -/
def noteBranch (d : Doc) (chatId text : String) :
    HttpResponse × Doc × List Effect :=
  let parts := jsSplitChar ' ' text
  let entryNumber := jsParseInt (parts.getD 1 "")
  let additionalNotes := String.intercalate " " (parts.drop 2)
  match entryNumber with
  | none =>
      (⟨200, .statusMsg "Invalid note command"⟩, d,
        [Effect.sendMessage chatId noteUsageReply])
  | some k =>
      if k = 0 ∨ additionalNotes = "" then
        (⟨200, .statusMsg "Invalid note command"⟩, d,
          [Effect.sendMessage chatId noteUsageReply])
      else
        let r := editEntry d k "notes" additionalNotes
        if r.1.success then
          (⟨200, .statusMsg "Note processed"⟩, r.2.1,
            r.2.2 ++ [Effect.sendMessage chatId
              ("✅ Added note to entry #" ++ toString k)])
        else
          (⟨200, .statusMsg "Note processed"⟩, r.2.1,
            r.2.2 ++ [Effect.sendMessage chatId
              ("❌ " ++ (r.1.error.getD ""))])

/-- The photo-receipt branch of the dispatcher: announce processing,
fetch the file, run `processReceiptOCR`, substitute a local-note
placeholder for a failed upload, stop with the OCR-specific reply when
no text was extracted, otherwise categorize, attach caption and receipt
URL, append to the ledger and report the outcome. -/
def photoBranch (env : Env) (d : Doc) (chatId caption : String)
    (photos : List String) : HttpResponse × Doc × List Effect :=
  let procMsg := "📸 Processing your receipt" ++
    (if caption ≠ "" then " with notes" else "") ++ "..."
  let pre := [Effect.sendMessage chatId procMsg]
  if ¬ env.telegramFileOk then
    (⟨200, .statusMsg "Receipt processing error"⟩, d,
      pre ++ [Effect.telegramGetFile,
        Effect.sendMessage chatId
          ("❌ Error processing receipt photo: " ++
            "Could not get file info from Telegram")])
  else
    let fileName := "receipt-" ++ (photos.getLastD "") ++ ".jpg"
    let ocr := processReceiptOCR env
    let imageUrl :=
      match ocr.1.imageUrl with
      | none => some ("Receipt saved locally: " ++ fileName)
      | some u => some u
    let fx0 := pre ++ [Effect.telegramGetFile] ++ ocr.2
    match ocr.1.text with
    | none =>
        (⟨200, .statusMsg "OCR failed"⟩, d,
          fx0 ++ [Effect.sendMessage chatId ocrFailureReply])
    | some t =>
        let descriptionForClaude := "Receipt text: " ++ t ++
          (if caption.trim ≠ "" then
            "\n\nAdditional context: " ++ caption.trim
          else "")
        let fx1 := fx0 ++ [Effect.claude descriptionForClaude]
        match env.claude descriptionForClaude with
        | none =>
            (⟨200, .statusMsg "Processing failed"⟩, d,
              fx1 ++ [Effect.sendMessage chatId
                categorizationFailureReply])
        | some e0 =>
            let e1 :=
              if caption.trim ≠ "" then
                { e0 with suggestedDescription :=
                    e0.suggestedDescription ++ " - " ++ caption.trim }
              else e0
            let e2 :=
              match imageUrl with
              | some u => { e1 with receiptUrl := u }
              | none => { e1 with receiptUrl := "" }
            let r := addExpenseToSheet env.today d e2 "Sheet1"
            if r.1.success then
              (⟨200, .statusMsg "Receipt processed successfully"⟩, r.2.1,
                fx1 ++ r.2.2 ++ [Effect.sendMessage chatId
                  (receiptProcessedReply e2 caption imageUrl t)])
            else
              (⟨200, .statusMsg "Receipt processed successfully"⟩, r.2.1,
                fx1 ++ r.2.2 ++ [Effect.sendMessage chatId
                  ("❌ Error saving receipt: " ++ (r.1.error.getD ""))])

/-- The plain-text expense branch of the dispatcher. -/
def textBranch (env : Env) (d : Doc) (chatId text : String) :
    HttpResponse × Doc × List Effect :=
  let pre := [Effect.sendMessage chatId "🤖 Processing your expense...",
    Effect.claude text]
  match env.claude text with
  | none =>
      (⟨200, .statusMsg "Processing failed"⟩, d,
        pre ++ [Effect.sendMessage chatId textFailureReply])
  | some e =>
      let r := addExpenseToSheet env.today d e "Sheet1"
      if r.1.success then
        (⟨200, .statusMsg "Processed successfully"⟩, r.2.1,
          pre ++ r.2.2 ++
            [Effect.sendMessage chatId (expenseAddedReply e)])
      else
        (⟨200, .statusMsg "Processed successfully"⟩, r.2.1,
          pre ++ r.2.2 ++ [Effect.sendMessage chatId
            ("❌ Error saving expense: " ++ (r.1.error.getD ""))])

/-- The POST body of the handler, after a message has been parsed:
the content guard, the allow-list check, then first-match routing over
exact commands, prefix commands, photo and plain text. -/
def handlePost (env : Env) (d : Doc) (m : Msg) :
    HttpResponse × Doc × List Effect :=
  if (m.text = none ∨ m.text = some "") ∧ m.photo = none then
    (⟨200, .statusMsg "No message text or photo"⟩, d, [])
  else
    let chatId := m.chatId
    let text := m.text.getD ""
    if chatId ∉ env.authorizedChatIds then
      (⟨200, .statusMsg "Unauthorized"⟩, d, [])
    else if text = "/start" then
      (⟨200, .statusMsg "Start message sent"⟩, d,
        [Effect.sendMessage chatId startReply])
    else if text = "/ytd" then
      let r := calculateYTDPaymentsE d env.currentYear
      (⟨200, .statusMsg "YTD message sent"⟩, d,
        r.2 ++ [Effect.sendMessage chatId (ytdReply r.1)])
    else if text = "/recent" then
      let r := getRecentEntries d 10
      if r.1.isEmpty then
        (⟨200, .statusMsg "Recent entries sent"⟩, d,
          r.2 ++ [Effect.sendMessage chatId "📋 No recent entries found."])
      else
        (⟨200, .statusMsg "Recent entries sent"⟩, d,
          r.2 ++ [Effect.sendMessage chatId (recentReply r.1)])
    else if jsStartsWith text "/edit " then
      editBranch d chatId text
    else if jsStartsWith text "/note " then
      noteBranch d chatId text
    else
      match m.photo with
      | some photos =>
          if photos.isEmpty then
            (⟨200, .statusMsg "No processable content"⟩, d, [])
          else
            photoBranch env d chatId (m.caption.getD "") photos
      | none =>
          if text ≠ "" ∧ ¬ (jsStartsWith text "/") then
            textBranch env d chatId text
          else
            (⟨200, .statusMsg "No processable content"⟩, d, [])

/-- The exported Netlify handler: OPTIONS preflight, GET health check,
405 for other non-POST methods, then the POST dispatch with a 500 only
for an exception escaping the whole try block. -/
def handler (env : Env) (d : Doc) (ev : Event) :
    HttpResponse × Doc × List Effect :=
  match ev.httpMethod with
  | .OPTIONS => (⟨200, .empty⟩, d, [])
  | .GET => (⟨200, .health⟩, d, [])
  | .other => (⟨405, .errorMsg "Method not allowed"⟩, d, [])
  | .POST =>
      match ev.body with
      | .malformed err => (⟨500, .errorMsg err⟩, d, [])
      | .noMessage => (⟨200, .statusMsg "No message text or photo"⟩, d, [])
      | .message m => handlePost env d m

/-! ## Concrete sample inputs -/

/-- A sample document with an empty primary and an empty related-party
ledger. -/
def exDoc : Doc := [("Sheet1", []), ("Family LLC", [])]

/-- A sample family-LLC business expense of amount 200. -/
def exExpense : ExpenseData :=
  { amount := 200
    vendor := "Venmo"
    category := "Contract Labor"
    businessType := "business"
    entityType := "family_llc"
    deductibilityPercentage := 100 }

/-- A concrete environment for dispatcher witnesses and
counterexamples: one authorized chat, a categorization call that always
fails, an OCR call that detects no text, and a working Telegram file
endpoint. -/
def exEnv : Env :=
  { authorizedChatIds := ["1"]
    today := "2025-06-01"
    currentYear := 2025
    claude := fun _ => none
    ocrDetections := some []
    uploadResult := none
    telegramFileOk := true }

/-- Rows exercising every filter arm of the YTD scan: a matching row, a
wrong-year row, a wrong-category row and a matching row with an
unparseable amount. -/
def exFamRows : List Row :=
  [{ date := "2025-02-01", category := "Contract Labor", amount := "200" },
   { date := "2024-02-01", category := "Contract Labor", amount := "50" },
   { date := "2025-03-01", category := "Supplies", amount := "75" },
   { date := "2025-04-01", category := "Contract Labor", amount := "n/a" }]

/-- A two-row main ledger, the `/edit 3` scenario of the specification. -/
def exDoc2 : Doc := [("Sheet1", [{}, {}])]

/-- A one-row main ledger whose notes cell is empty. -/
def c6Doc : Doc := [("Sheet1", [{}])]

/-- A one-row main ledger with a non-empty notes cell. -/
def c6WitnessDoc : Doc := [("Sheet1", [{ workDescription := "prior" }])]

/-- Bool test for an invocation of the Categorization Engine or a
storage upload in a trace. -/
def isCategorizeOrUpload : Effect → Bool
  | Effect.claude _ => true
  | Effect.storageUpload => true
  | _ => false

/-! ## Helper lemmas -/

/-- A non-empty string has positive length. -/
theorem str_len_pos (s : String) (h : s ≠ "") : 0 < s.length := by
  cases s with
  | mk data =>
    cases data with
    | nil => exact absurd rfl h
    | cons c cs => simp [String.length]

/-- Appending a non-empty string yields a non-empty string. -/
theorem append_right_ne_empty (a b : String) (h : b ≠ "") : a ++ b ≠ "" := by
  intro hc
  have h2 := congrArg String.length hc
  rw [String.length_append] at h2
  have h3 : ("" : String).length = 0 := rfl
  have := str_len_pos b h
  omega

/-- The per-pair update of `setSheet` never changes a pair's title. -/
theorem setSheet_pred_comp (name name' : String) (rows : List Row) :
    ((fun p : String × List Row => p.1 == name') ∘
      (fun p => if p.1 == name then (p.1, rows) else p)) =
    (fun p : String × List Row => p.1 == name') := by
  funext p
  by_cases hk : p.1 = name <;> simp [hk]

/-- Replacing one sheet's rows leaves every other sheet's lookup
unchanged. -/
theorem lookupSheet_setSheet_ne (d : Doc) (name name' : String)
    (rows : List Row) (h : name' ≠ name) :
    lookupSheet (setSheet d name rows) name' = lookupSheet d name' := by
  unfold lookupSheet setSheet
  rw [List.find?_map, setSheet_pred_comp name name' rows]
  cases hf : List.find? (fun p : String × List Row => p.1 == name') d with
  | none => rfl
  | some q =>
      have hq : q.1 = name' := by simpa using List.find?_some hf
      have hne : (q.1 == name) = false := by
        apply beq_eq_false_iff_ne.mpr
        rw [hq]
        exact h
      simp [hne]
      rw [if_neg (show ¬ q.1 = name by rw [hq]; exact h)]

/-- Replacing one sheet's rows makes its own lookup return the new rows,
provided the sheet existed. -/
theorem lookupSheet_setSheet_eq (d : Doc) (name : String)
    (rows rows' : List Row) (h : lookupSheet d name = some rows) :
    lookupSheet (setSheet d name rows') name = some rows' := by
  unfold lookupSheet setSheet
  unfold lookupSheet at h
  rw [List.find?_map, setSheet_pred_comp name name rows']
  cases hf : List.find? (fun p : String × List Row => p.1 == name) d with
  | none => rw [hf] at h; simp at h
  | some q =>
      have hq : q.1 = name := by simpa using List.find?_some hf
      have heq : (q.1 == name) = true := beq_iff_eq.mpr hq
      simp [heq]
      rw [if_pos hq]

/-- Writing back the resolved main sheet re-resolves to it with the new
rows. -/
theorem resolveMainSheet_setSheet (d : Doc) (name : String)
    (rows rs : List Row) (h : resolveMainSheet d = some (name, rows)) :
    resolveMainSheet (setSheet d name rs) = some (name, rs) := by
  unfold resolveMainSheet at h ⊢
  cases h1 : lookupSheet d "Sheet1" with
  | some rows0 =>
      rw [h1] at h
      simp only [Option.some.injEq, Prod.mk.injEq] at h
      obtain ⟨hn, hr⟩ := h
      subst hn
      rw [lookupSheet_setSheet_eq d "Sheet1" rows0 rs h1]
  | none =>
      rw [h1] at h
      cases h2 : lookupSheet d "Master Sheet" with
      | none => rw [h2] at h; simp at h
      | some rows1 =>
          rw [h2] at h
          simp only [Option.some.injEq, Prod.mk.injEq] at h
          obtain ⟨hn, hr⟩ := h
          subst hn
          have hs1 : lookupSheet (setSheet d "Master Sheet" rs) "Sheet1"
              = none := by
            rw [lookupSheet_setSheet_ne d "Master Sheet" "Sheet1" rs
              (by decide)]
            exact h1
          rw [hs1, lookupSheet_setSheet_eq d "Master Sheet" rows1 rs h2]

/-- Calling `addExpenseToSheet` on the primary ledger never touches the
`'Family LLC'` sheet. -/
theorem addExpense_preserves_famLLC (today : String) (d : Doc)
    (e : ExpenseData) :
    lookupSheet (addExpenseToSheet today d e "Sheet1").2.1 "Family LLC"
      = lookupSheet d "Family LLC" := by
  unfold addExpenseToSheet
  cases h1 : lookupSheet d "Sheet1" with
  | some rows =>
      simp only [h1]
      exact lookupSheet_setSheet_ne d "Sheet1" "Family LLC" _ (by decide)
  | none =>
      simp only [h1]
      cases h2 : lookupSheet d "Master Sheet" with
      | some rows =>
          simp only [h2]
          exact lookupSheet_setSheet_ne d "Master Sheet" "Family LLC" _
            (by decide)
      | none => simp only [h2]

/-- The `forEach` loop of the YTD computation, run from any accumulator,
adds the filtered sum. -/
theorem ytdLoop_foldl (y : Int) (rows : List Row) (acc : ℚ) :
    rows.foldl
      (fun a r => if ytdRowMatch y r then a + rowAmount r else a) acc
      = acc + specYTDSum y rows := by
  induction rows generalizing acc with
  | nil => simp [specYTDSum]
  | cons r t ih =>
      simp only [List.foldl_cons]
      by_cases h : ytdRowMatch y r = true
      · rw [if_pos h, ih]
        simp [specYTDSum, List.filter_cons_of_pos h, add_assoc]
      · rw [if_neg h, ih]
        simp [specYTDSum,
          List.filter_cons_of_neg (by simpa using h)]

/-! ## Claim C1 -/




/-- C1 counterexample: for a family-LLC, non-personal record the primary
append succeeds, yet the related-party ledger is left exactly as it was
and no append to it is even attempted — the claimed secondary
best-effort append does not exist in `addExpenseToSheet`. -/
theorem c1_counterexample :
    (addExpenseToSheet "2025-06-01" exDoc exExpense "Sheet1").1.success
        = true ∧
    lookupSheet (addExpenseToSheet "2025-06-01" exDoc exExpense
      "Sheet1").2.1 "Family LLC" = some [] ∧
    ((addExpenseToSheet "2025-06-01" exDoc exExpense "Sheet1").2.2).contains
        (Effect.ledgerAppend "Family LLC") = false := by
  decide

/-- C1 (amended): `addExpenseToSheet` on the primary ledger performs no
secondary append at all — for every document and every expense record
(family-LLC, non-personal included) the related-party `'Family LLC'`
sheet is unchanged and no append effect targets it. -/
theorem c1_no_secondary_append (today : String) (d : Doc)
    (e : ExpenseData) :
    lookupSheet (addExpenseToSheet today d e "Sheet1").2.1 "Family LLC"
      = lookupSheet d "Family LLC" ∧
    ((addExpenseToSheet today d e "Sheet1").2.2).contains
      (Effect.ledgerAppend "Family LLC") = false := by
  refine ⟨addExpense_preserves_famLLC today d e, ?_⟩
  unfold addExpenseToSheet
  cases h1 : lookupSheet d "Sheet1" with
  | some rows => simp only [h1]; decide
  | none =>
      simp only [h1]
      cases h2 : lookupSheet d "Master Sheet" with
      | some rows => simp only [h2]; decide
      | none => simp only [h2]; decide

/-! ## Claim C2 -/

/-- C2 counterexample: at a concrete ledger state, appending the exact
record of the claim (family_llc / business / Contract Labor / 200)
leaves `computeYTD()` at 0 instead of raising it by 200, because the
append goes to the primary sheet and the YTD scan reads only the
`'Family LLC'` sheet. -/
theorem c2_counterexample :
    calculateYTDPayments exDoc 2025 = 0 ∧
    calculateYTDPayments
      (addExpenseToSheet "2025-06-01" exDoc exExpense "Sheet1").2.1 2025
      = 0 ∧
    calculateYTDPayments
        (addExpenseToSheet "2025-06-01" exDoc exExpense "Sheet1").2.1 2025
      ≠ calculateYTDPayments exDoc 2025 + 200 := by
  have h1 : calculateYTDPayments exDoc 2025 = 0 := by decide
  have h2 : calculateYTDPayments
      (addExpenseToSheet "2025-06-01" exDoc exExpense "Sheet1").2.1 2025
      = 0 := by decide
  refine ⟨h1, h2, ?_⟩
  rw [h1, h2]
  norm_num

/-- C2 (amended): appending a record with `entityType = family_llc`,
`businessType = business`, `category = "Contract Labor"`,
`amount = 200` through `addExpenseToSheet` leaves a subsequent
`computeYTD()` call unchanged (not increased by 200), for every ledger
state and every current year. -/
theorem c2_ytd_unchanged (today : String) (d : Doc) (e : ExpenseData)
    (y : Int) (h1 : e.entityType = "family_llc")
    (h2 : e.businessType = "business")
    (h3 : e.category = "Contract Labor") (h4 : e.amount = 200) :
    calculateYTDPayments (addExpenseToSheet today d e "Sheet1").2.1 y
      = calculateYTDPayments d y := by
  unfold calculateYTDPayments calculateYTDPaymentsE
  rw [addExpense_preserves_famLLC today d e]

/-- C2 witness: the amended theorem applied at a concrete state. -/
theorem c2_ytd_unchanged_witness :
    calculateYTDPayments
      (addExpenseToSheet "2025-06-01" exDoc exExpense "Sheet1").2.1 2025
      = calculateYTDPayments exDoc 2025 :=
  c2_ytd_unchanged "2025-06-01" exDoc exExpense 2025 rfl rfl rfl rfl

/-! ## Claim C5 -/

/-- C5: `computeYTD()` returns 0 when the related-party sheet does not
exist, and otherwise returns exactly the sum of `amount` over the rows
whose date parses to the current year and whose category is
`"Contract Labor"`, unparseable amounts contributing 0 (the
`specYTDSum` reading of the specification). -/
theorem c5_ytd_characterization (d : Doc) (y : Int) :
    (lookupSheet d "Family LLC" = none → calculateYTDPayments d y = 0) ∧
    (∀ rows, lookupSheet d "Family LLC" = some rows →
      calculateYTDPayments d y = specYTDSum y rows) := by
  constructor
  · intro h
    unfold calculateYTDPayments calculateYTDPaymentsE
    rw [h]
  · intro rows h
    unfold calculateYTDPayments calculateYTDPaymentsE
    rw [h]
    show ytdLoop y rows = specYTDSum y rows
    unfold ytdLoop
    have := ytdLoop_foldl y rows 0
    rw [this, zero_add]


/-- C5 witness: the characterization applied at a concrete related-party
ledger. -/
theorem c5_ytd_characterization_witness :
    lookupSheet [("Family LLC", exFamRows)] "Family LLC" = some exFamRows ∧
    calculateYTDPayments [("Family LLC", exFamRows)] 2025
      = specYTDSum 2025 exFamRows :=
  ⟨rfl, (c5_ytd_characterization [("Family LLC", exFamRows)] 2025).2
    exFamRows rfl⟩

/-! ## Claims C6 and C7: editEntry -/

/-- Reading with `getD` after `set` at the same in-range index returns the new
element. -/
theorem getD_set_self (l : List Row) (i : Nat) (a d0 : Row)
    (h : i < l.length) : (l.set i a).getD i d0 = a := by
  rw [List.getD_eq_getElem?_getD, List.getElem?_set_self, Option.getD_some]
  omega

/-- Updating the `notes` field appends to the `Work Description` cell
with the `" | "` separator exactly when that cell is non-empty. -/
theorem updateRowField_notes_eq (x : String) (r : Row) :
    updateRowField "notes" x r =
      { r with workDescription :=
          if r.workDescription ≠ "" then r.workDescription ++ " | " ++ x
          else x } := by
  unfold updateRowField
  simp

/-- Updating the `description` field overwrites the `Description`
cell. -/
theorem updateRowField_description_eq (v : String) (r : Row) :
    updateRowField "description" v r = { r with description := v } := by
  unfold updateRowField
  simp

/-- Running `editEntry` on an in-range index resolves the main sheet, updates
the addressed row and saves. -/
theorem editEntry_in_range (d : Doc) (name : String) (rows : List Row)
    (n : Int) (field v : String)
    (hres : resolveMainSheet d = some (name, rows))
    (h1 : 1 ≤ n) (h2 : n ≤ (rows.length : Int)) :
    editEntry d n field v =
      (⟨true, none⟩,
        setSheet d name (rows.set (n - 1).toNat
          (updateRowField field v (rows.getD (n - 1).toNat default))),
        [Effect.ledgerRead name, Effect.ledgerSave]) := by
  unfold editEntry
  rw [hres]
  dsimp only
  rw [if_neg (by intro hcon; rcases hcon with h | h <;> omega)]

/-- Running `editEntry` on an index below 1 or above the row count fails with
the not-found error and does not touch the document. -/
theorem editEntry_not_found (d : Doc) (name : String)
    (rows : List Row) (field v : String) (n : Int)
    (hres : resolveMainSheet d = some (name, rows))
    (hn : n < 1 ∨ n > (rows.length : Int)) :
    editEntry d n field v =
      (⟨false, some (entryNotFoundMsg n)⟩, d, [Effect.ledgerRead name]) := by
  unfold editEntry
  rw [hres]
  dsimp only
  rw [if_pos hn]

/-- C7: for an index of 0 (or any index above the row count) `editEntry`
fails with the not-found error that names the entry number and points at
`/recent`, and returns the document unchanged — no row is mutated. -/
theorem c7_out_of_range_not_found (d : Doc) (name : String)
    (rows : List Row) (field v : String) (n : Int)
    (hres : resolveMainSheet d = some (name, rows))
    (hn : n = 0 ∨ n > (rows.length : Int)) :
    editEntry d n field v =
      (⟨false, some (entryNotFoundMsg n)⟩, d, [Effect.ledgerRead name]) :=
  editEntry_not_found d name rows field v n hres
    (by rcases hn with h | h
        · left; omega
        · right; exact h)


/-- C7 witness: `editEntry` at index 3 on a two-row ledger fails with
`Entry #3 not found. Use /recent to see available entries.` and leaves
the ledger unchanged. -/
theorem c7_out_of_range_not_found_witness :
    editEntry exDoc2 3 "description" "Updated text" =
      (⟨false, some (entryNotFoundMsg 3)⟩, exDoc2,
        [Effect.ledgerRead "Sheet1"]) :=
  c7_out_of_range_not_found exDoc2 "Sheet1" [{}, {}] "description"
    "Updated text" 3 rfl (Or.inr (by decide))


/-- C6 counterexample: with the empty string as the first notes value
`x`, the stored cell after the two updates is just `y` — it does not
contain `x` and `y` joined by the separator, because the first update
left the cell empty and the second then overwrote it without a
separator. -/
theorem c6_counterexample :
    lookupSheet (editEntry (editEntry c6Doc 1 "notes" "").2.1
        1 "notes" "b").2.1 "Sheet1"
      = some [{ workDescription := "b" }] ∧
    ¬ ∃ pre post : String, "b" = pre ++ "" ++ " | " ++ "b" ++ post := by
  constructor
  · decide
  · rintro ⟨p, q, hpq⟩
    have hlen := congrArg String.length hpq
    simp only [String.length_append] at hlen
    have e1 : ("b" : String).length = 1 := rfl
    have e2 : (" | " : String).length = 3 := rfl
    have e3 : ("" : String).length = 0 := rfl
    rw [e1, e2, e3] at hlen
    omega

/-- C6 (amended): for an in-range index and a non-empty first value `x`,
two successive `notes` updates store a value that ends with `x`, the
separator and `y` — `x` is never overwritten — while a `description`
update overwrites the stored description. -/
theorem c6_notes_append_description_overwrite (d : Doc) (name : String)
    (rows : List Row) (n : Int) (x y v : String)
    (hres : resolveMainSheet d = some (name, rows))
    (h1 : 1 ≤ n) (h2 : n ≤ (rows.length : Int)) (hx : x ≠ "") :
    (∃ rows2,
      resolveMainSheet (editEntry (editEntry d n "notes" x).2.1
          n "notes" y).2.1 = some (name, rows2) ∧
      ∃ pre, (rows2.getD (n - 1).toNat default).workDescription
        = pre ++ (x ++ " | " ++ y)) ∧
    (∃ rows3,
      resolveMainSheet (editEntry d n "description" v).2.1
        = some (name, rows3) ∧
      (rows3.getD (n - 1).toNat default).description = v) := by
  have hi : (n - 1).toNat < rows.length := by omega
  constructor
  · have e1 := editEntry_in_range d name rows n "notes" x hres h1 h2
    rw [e1]
    have hres1 := resolveMainSheet_setSheet d name rows
      (rows.set (n - 1).toNat
        (updateRowField "notes" x (rows.getD (n - 1).toNat default))) hres
    have hlen1 : ((rows.set (n - 1).toNat
        (updateRowField "notes" x (rows.getD (n - 1).toNat
          default))).length : Int) = (rows.length : Int) := by
      rw [List.length_set]
    have e2 := editEntry_in_range _ name _ n "notes" y hres1 h1
      (by rw [hlen1]; exact h2)
    rw [e2]
    refine ⟨_, resolveMainSheet_setSheet _ name _ _ hres1, ?_⟩
    have hget1 : (rows.set (n - 1).toNat
        (updateRowField "notes" x (rows.getD (n - 1).toNat
          default))).getD (n - 1).toNat default
        = updateRowField "notes" x (rows.getD (n - 1).toNat default) :=
      getD_set_self rows (n - 1).toNat _ default hi
    have hget2 := getD_set_self
      (rows.set (n - 1).toNat
        (updateRowField "notes" x (rows.getD (n - 1).toNat default)))
      (n - 1).toNat
      (updateRowField "notes" y ((rows.set (n - 1).toNat
        (updateRowField "notes" x (rows.getD (n - 1).toNat
          default))).getD (n - 1).toNat default))
      default (by rw [List.length_set]; exact hi)
    by_cases h0 : (rows.getD (n - 1).toNat default).workDescription = ""
    · refine ⟨"", ?_⟩
      have hw1 : updateRowField "notes" x (rows.getD (n - 1).toNat default)
          = { rows.getD (n - 1).toNat default with workDescription := x } := by
        rw [updateRowField_notes_eq x, h0]
        rw [if_neg (by simp)]
      rw [hget2, hget1, hw1, updateRowField_notes_eq y]
      dsimp only
      rw [if_pos hx]
      rw [String.empty_append]
    · refine ⟨(rows.getD (n - 1).toNat default).workDescription ++ " | ",
        ?_⟩
      rw [hget2, hget1, updateRowField_notes_eq x, updateRowField_notes_eq y]
      dsimp only
      rw [if_pos h0]
      rw [if_pos (append_right_ne_empty _ x hx)]
      simp [String.append_assoc]
  · have e3 := editEntry_in_range d name rows n "description" v hres h1 h2
    rw [e3]
    refine ⟨_, resolveMainSheet_setSheet d name rows _ hres, ?_⟩
    rw [getD_set_self rows (n - 1).toNat _ default hi,
      updateRowField_description_eq]


/-- C6 witness: the amended theorem applied at a concrete one-row
ledger with in-range index 1 and non-empty `x`. -/
theorem c6_notes_append_description_overwrite_witness :
    (∃ rows2,
      resolveMainSheet (editEntry (editEntry c6WitnessDoc 1 "notes" "x").2.1
          1 "notes" "y").2.1 = some ("Sheet1", rows2) ∧
      ∃ pre, (rows2.getD 0 default).workDescription
        = pre ++ ("x" ++ " | " ++ "y")) ∧
    (∃ rows3,
      resolveMainSheet (editEntry c6WitnessDoc 1 "description" "New").2.1
        = some ("Sheet1", rows3) ∧
      (rows3.getD 0 default).description = "New") :=
  c6_notes_append_description_overwrite c6WitnessDoc "Sheet1"
    [{ workDescription := "prior" }] 1 "x" "y" "New" rfl (by decide)
    (by decide) (by decide)

/-! ## Dispatcher routing helpers -/

/-- The content guard at the top of the POST dispatch is passed by any
message carrying a non-empty text. -/
theorem contentGuard_ne (m : Msg) (t : String) (htext : m.text = some t)
    (htne : t ≠ "") :
    ¬ ((m.text = none ∨ m.text = some "") ∧ m.photo = none) := by
  intro hcon
  rcases hcon.1 with hl | hl
  · rw [htext] at hl; cases hl
  · rw [htext] at hl
    injection hl with hv
    exact htne hv

/-- An authorized text that is none of the exact commands and starts
with `"/edit "` routes to the edit branch. -/
theorem handlePost_route_edit (env : Env) (d : Doc) (m : Msg) (t : String)
    (hauth : m.chatId ∈ env.authorizedChatIds)
    (htext : m.text = some t)
    (h1 : t ≠ "/start") (h2 : t ≠ "/ytd") (h3 : t ≠ "/recent")
    (hstart : jsStartsWith t "/edit " = true) :
    handler env d ⟨.POST, .message m⟩ = editBranch d m.chatId t := by
  have htne : t ≠ "" := by
    intro h0
    rw [h0] at hstart
    exact absurd hstart (by decide)
  show handlePost env d m = _
  unfold handlePost
  rw [if_neg (contentGuard_ne m t htext htne), htext]
  dsimp only [Option.getD]
  rw [if_neg (not_not_intro hauth), if_neg h1, if_neg h2, if_neg h3,
    if_pos hstart]

/-- An authorized text that is none of the exact commands, does not
start with `"/edit "`, and starts with `"/note "` routes to the note
branch. -/
theorem handlePost_route_note (env : Env) (d : Doc) (m : Msg) (t : String)
    (hauth : m.chatId ∈ env.authorizedChatIds)
    (htext : m.text = some t)
    (h1 : t ≠ "/start") (h2 : t ≠ "/ytd") (h3 : t ≠ "/recent")
    (h4 : jsStartsWith t "/edit " = false)
    (hstart : jsStartsWith t "/note " = true) :
    handler env d ⟨.POST, .message m⟩ = noteBranch d m.chatId t := by
  have htne : t ≠ "" := by
    intro h0
    rw [h0] at hstart
    exact absurd hstart (by decide)
  show handlePost env d m = _
  unfold handlePost
  rw [if_neg (contentGuard_ne m t htext htne), htext]
  dsimp only [Option.getD]
  rw [if_neg (not_not_intro hauth), if_neg h1, if_neg h2, if_neg h3,
    if_neg (by rw [h4]; exact Bool.false_ne_true), if_pos hstart]

/-! ## Claim C9 -/

/-- C9: a POST carrying a message whose chat id is outside the
allow-list is answered with HTTP 200, no chat reply, no external call of
any kind, and an unchanged ledger. -/
theorem c9_unauthorized_silent (env : Env) (d : Doc) (m : Msg)
    (h : m.chatId ∉ env.authorizedChatIds) :
    (handler env d ⟨.POST, .message m⟩).1.statusCode = 200 ∧
    (handler env d ⟨.POST, .message m⟩).2.1 = d ∧
    (handler env d ⟨.POST, .message m⟩).2.2 = [] := by
  have hh : handler env d ⟨.POST, .message m⟩ = handlePost env d m := rfl
  rw [hh]
  unfold handlePost
  split
  · exact ⟨rfl, rfl, rfl⟩
  · dsimp only
    rw [if_pos h]
    exact ⟨rfl, rfl, rfl⟩

/-- C9 witness: the theorem applied to a concrete unauthorized sender. -/
theorem c9_unauthorized_silent_witness :
    (handler exEnv exDoc ⟨.POST, .message { chatId := "2", text := some "hello" }⟩).1.statusCode
        = 200 ∧
    (handler exEnv exDoc ⟨.POST, .message { chatId := "2", text := some "hello" }⟩).2.1
        = exDoc ∧
    (handler exEnv exDoc ⟨.POST, .message { chatId := "2", text := some "hello" }⟩).2.2
        = [] :=
  c9_unauthorized_silent _ exDoc { chatId := "2", text := some "hello" }
    (by decide)

/-! ## Claim C10 -/

/-- C10: an authorized text starting with `"/"` that matches no
recognized command form (the bare `/edit` and `/note` included) is
answered with HTTP 200 and status `No processable content`, with no
chat reply and no other effect, and the ledger unchanged. -/
theorem c10_unknown_command_silent (env : Env) (d : Doc) (m : Msg)
    (t : String)
    (hauth : m.chatId ∈ env.authorizedChatIds)
    (htext : m.text = some t) (hphoto : m.photo = none)
    (hslash : jsStartsWith t "/" = true)
    (h1 : t ≠ "/start") (h2 : t ≠ "/ytd") (h3 : t ≠ "/recent")
    (h4 : jsStartsWith t "/edit " = false)
    (h5 : jsStartsWith t "/note " = false) :
    handler env d ⟨.POST, .message m⟩ =
      (⟨200, RespBody.statusMsg "No processable content"⟩, d, []) := by
  have htne : t ≠ "" := by
    intro h0
    rw [h0] at hslash
    exact absurd hslash (by decide)
  show handlePost env d m = _
  unfold handlePost
  rw [if_neg (contentGuard_ne m t htext htne), htext]
  dsimp only [Option.getD]
  rw [if_neg (not_not_intro hauth), if_neg h1, if_neg h2, if_neg h3,
    if_neg (by rw [h4]; exact Bool.false_ne_true),
    if_neg (by rw [h5]; exact Bool.false_ne_true), hphoto]
  dsimp only
  rw [if_neg (fun hcon => hcon.2 hslash)]

/-- C10 witness: the bare `/edit` command (no trailing space or
argument) gets no reply and the `No processable content` status. -/
theorem c10_unknown_command_silent_witness :
    handler exEnv exDoc ⟨.POST, .message { chatId := "1", text := some "/edit" }⟩ =
      (⟨200, RespBody.statusMsg "No processable content"⟩, exDoc, []) :=
  c10_unknown_command_silent _ exDoc
    { chatId := "1", text := some "/edit" } "/edit" (by decide) rfl rfl
    (by decide) (by decide) (by decide) (by decide) (by decide) (by decide)

/-! ## Claim C4 -/

/-- Every exit of the edit branch is HTTP 200 with a status body. -/
theorem editBranch_ok (d : Doc) (c t : String) :
    ∃ s d2 fx, editBranch d c t = (⟨200, RespBody.statusMsg s⟩, d2, fx) := by
  unfold editBranch
  dsimp only
  repeat' split
  all_goals exact ⟨_, _, _, rfl⟩

/-- Every exit of the note branch is HTTP 200 with a status body. -/
theorem noteBranch_ok (d : Doc) (c t : String) :
    ∃ s d2 fx, noteBranch d c t = (⟨200, RespBody.statusMsg s⟩, d2, fx) := by
  unfold noteBranch
  dsimp only
  repeat' split
  all_goals exact ⟨_, _, _, rfl⟩

/-- Every exit of the photo-receipt branch is HTTP 200 with a status
body. -/
theorem photoBranch_ok (env : Env) (d : Doc) (c cap : String)
    (ps : List String) :
    ∃ s d2 fx, photoBranch env d c cap ps
      = (⟨200, RespBody.statusMsg s⟩, d2, fx) := by
  unfold photoBranch
  dsimp only
  repeat' split
  all_goals exact ⟨_, _, _, rfl⟩

/-- Every exit of the plain-text branch is HTTP 200 with a status
body. -/
theorem textBranch_ok (env : Env) (d : Doc) (c t : String) :
    ∃ s d2 fx, textBranch env d c t
      = (⟨200, RespBody.statusMsg s⟩, d2, fx) := by
  unfold textBranch
  dsimp only
  repeat' split
  all_goals exact ⟨_, _, _, rfl⟩

/-- Every exit of the POST dispatch over a parsed message is HTTP 200
with a status body. -/
theorem handlePost_ok (env : Env) (d : Doc) (m : Msg) :
    ∃ s d2 fx, handlePost env d m
      = (⟨200, RespBody.statusMsg s⟩, d2, fx) := by
  unfold handlePost
  dsimp only
  repeat' split
  all_goals first
    | exact ⟨_, _, _, rfl⟩
    | exact editBranch_ok d m.chatId (m.text.getD "")
    | exact noteBranch_ok d m.chatId (m.text.getD "")
    | exact photoBranch_ok env d m.chatId (m.caption.getD "") _
    | exact textBranch_ok env d m.chatId (m.text.getD "")

/-- C4 counterexample: a routed POST (authorized sender, unrecognized
`/x` command) that returns HTTP 200 with a status body but sends no
chat reply at all — its effect trace is empty, so not every routed
branch replies over the Messaging Gateway. -/
theorem c4_counterexample :
    handler exEnv exDoc ⟨.POST, .message { chatId := "1", text := some "/x" }⟩ =
      (⟨200, RespBody.statusMsg "No processable content"⟩, exDoc, []) := by
  decide

/-- C4 (amended): for a POST, a body that parses routes every branch to
HTTP 200 with a `{status}` body (chat replies are not sent on every
branch: the empty-content, unauthorized and unrecognized-content
branches reply nothing), and HTTP 500 with an `{error}` body occurs
exactly when the exception of a malformed body escapes the handler. -/
theorem c4_http_contract (env : Env) (d : Doc) :
    (∀ err, (handler env d ⟨.POST, .malformed err⟩).1
        = ⟨500, RespBody.errorMsg err⟩) ∧
    ((handler env d ⟨.POST, .noMessage⟩).1
        = ⟨200, RespBody.statusMsg "No message text or photo"⟩) ∧
    (∀ m, ∃ s d2 fx, handler env d ⟨.POST, .message m⟩
        = (⟨200, RespBody.statusMsg s⟩, d2, fx)) :=
  ⟨fun _ => rfl, rfl, fun m => handlePost_ok env d m⟩

/-! ## Claim C8 -/

/-- C8 counterexample: the negative index `-1` in `/edit -1 x` passes
the dispatcher's `!entryNumber` guard (a negative number is truthy), so
the reply is the ledger's not-found error, not the usage-error
message the claim requires for every non-positive index. -/
theorem c8_counterexample :
    handler exEnv exDoc
        ⟨.POST, .message { chatId := "1", text := some "/edit -1 x" }⟩ =
      (⟨200, RespBody.statusMsg "Edit processed"⟩, exDoc,
        [Effect.ledgerRead "Sheet1",
          Effect.sendMessage "1" ("❌ " ++ entryNotFoundMsg (-1))]) ∧
    ("❌ " ++ entryNotFoundMsg (-1)) ≠ editUsageReply := by
  constructor
  · decide
  · decide

/-- C8 (amended): for `/edit` (and `/note`), an index that fails to
parse or parses to zero, or an empty trailing text, draws the
usage-error reply with no ledger mutation; a negative index however
passes the guard and draws the ledger's not-found error reply instead —
also with no mutation. -/
theorem c8_edit_note_index_validation (env : Env) (d : Doc) (m : Msg)
    (t : String)
    (hauth : m.chatId ∈ env.authorizedChatIds)
    (htext : m.text = some t)
    (h1 : t ≠ "/start") (h2 : t ≠ "/ytd") (h3 : t ≠ "/recent") :
    (jsStartsWith t "/edit " = true →
      (jsParseInt ((jsSplitChar ' ' t).getD 1 "") = none ∨
        jsParseInt ((jsSplitChar ' ' t).getD 1 "") = some 0 ∨
        String.intercalate " " ((jsSplitChar ' ' t).drop 2) = "") →
      handler env d ⟨.POST, .message m⟩ =
        (⟨200, RespBody.statusMsg "Invalid edit command"⟩, d,
          [Effect.sendMessage m.chatId editUsageReply])) ∧
    (jsStartsWith t "/edit " = true →
      ∀ k name rows,
        jsParseInt ((jsSplitChar ' ' t).getD 1 "") = some k → k < 0 →
        String.intercalate " " ((jsSplitChar ' ' t).drop 2) ≠ "" →
        resolveMainSheet d = some (name, rows) →
        handler env d ⟨.POST, .message m⟩ =
          (⟨200, RespBody.statusMsg "Edit processed"⟩, d,
            [Effect.ledgerRead name,
              Effect.sendMessage m.chatId ("❌ " ++ entryNotFoundMsg k)])) ∧
    (jsStartsWith t "/edit " = false → jsStartsWith t "/note " = true →
      (jsParseInt ((jsSplitChar ' ' t).getD 1 "") = none ∨
        jsParseInt ((jsSplitChar ' ' t).getD 1 "") = some 0 ∨
        String.intercalate " " ((jsSplitChar ' ' t).drop 2) = "") →
      handler env d ⟨.POST, .message m⟩ =
        (⟨200, RespBody.statusMsg "Invalid note command"⟩, d,
          [Effect.sendMessage m.chatId noteUsageReply])) ∧
    (jsStartsWith t "/edit " = false → jsStartsWith t "/note " = true →
      ∀ k name rows,
        jsParseInt ((jsSplitChar ' ' t).getD 1 "") = some k → k < 0 →
        String.intercalate " " ((jsSplitChar ' ' t).drop 2) ≠ "" →
        resolveMainSheet d = some (name, rows) →
        handler env d ⟨.POST, .message m⟩ =
          (⟨200, RespBody.statusMsg "Note processed"⟩, d,
            [Effect.ledgerRead name,
              Effect.sendMessage m.chatId ("❌ " ++ entryNotFoundMsg k)])) := by
  refine ⟨?_, ?_, ?_, ?_⟩
  · intro hstart husage
    rw [handlePost_route_edit env d m t hauth htext h1 h2 h3 hstart]
    unfold editBranch
    dsimp only
    rcases husage with hnone | hzero | htrail
    · rw [hnone]
    · rw [hzero]
      dsimp only
      rw [if_pos (Or.inl rfl)]
    · rcases hje : jsParseInt ((jsSplitChar ' ' t).getD 1 "") with _ | k
      · rfl
      · dsimp only
        rw [if_pos (Or.inr htrail)]
  · intro hstart k name rows hk hneg htrail hres
    rw [handlePost_route_edit env d m t hauth htext h1 h2 h3 hstart]
    unfold editBranch
    dsimp only
    rw [hk]
    dsimp only
    rw [if_neg (by
      rintro (h0 | h0)
      · omega
      · exact htrail h0)]
    rw [editEntry_not_found d name rows "description"
      (String.intercalate " " ((jsSplitChar ' ' t).drop 2)) k hres
      (Or.inl (by omega))]
    dsimp only
    rw [if_neg Bool.false_ne_true]
    rfl
  · intro hedit hstart husage
    rw [handlePost_route_note env d m t hauth htext h1 h2 h3 hedit hstart]
    unfold noteBranch
    dsimp only
    rcases husage with hnone | hzero | htrail
    · rw [hnone]
    · rw [hzero]
      dsimp only
      rw [if_pos (Or.inl rfl)]
    · rcases hje : jsParseInt ((jsSplitChar ' ' t).getD 1 "") with _ | k
      · rfl
      · dsimp only
        rw [if_pos (Or.inr htrail)]
  · intro hedit hstart k name rows hk hneg htrail hres
    rw [handlePost_route_note env d m t hauth htext h1 h2 h3 hedit hstart]
    unfold noteBranch
    dsimp only
    rw [hk]
    dsimp only
    rw [if_neg (by
      rintro (h0 | h0)
      · omega
      · exact htrail h0)]
    rw [editEntry_not_found d name rows "notes"
      (String.intercalate " " ((jsSplitChar ' ' t).drop 2)) k hres
      (Or.inl (by omega))]
    dsimp only
    rw [if_neg Bool.false_ne_true]
    rfl

/-- C8 witness: the amended theorem applied to the concrete command
`/edit 0 x`, whose zero index draws the usage-error reply with no
mutation. -/
theorem c8_edit_note_index_validation_witness :
    handler exEnv exDoc
        ⟨.POST, .message { chatId := "1", text := some "/edit 0 x" }⟩ =
      (⟨200, RespBody.statusMsg "Invalid edit command"⟩, exDoc,
        [Effect.sendMessage "1" editUsageReply]) :=
  (c8_edit_note_index_validation exEnv exDoc
    { chatId := "1", text := some "/edit 0 x" } "/edit 0 x" (by decide)
    rfl (by decide) (by decide) (by decide)).1 (by decide)
    (Or.inr (Or.inl (by decide)))

/-! ## Claim C3 -/


/-- C3: a photo message from an authorized sender whose OCR detects no
text never invokes the Categorization Engine, never attempts a storage
upload, and draws the OCR-specific failure reply, which differs from
the categorization-failure reply; the response is 200 `OCR failed`. -/
theorem c3_ocr_no_text (env : Env) (d : Doc) (m : Msg)
    (photos : List String)
    (hauth : m.chatId ∈ env.authorizedChatIds)
    (htext : m.text = none)
    (hphoto : m.photo = some photos) (hne : photos ≠ [])
    (hfile : env.telegramFileOk = true)
    (hocr : env.ocrDetections = some []) :
    ((handler env d ⟨.POST, .message m⟩).2.2).any isCategorizeOrUpload
        = false ∧
    Effect.sendMessage m.chatId ocrFailureReply
        ∈ (handler env d ⟨.POST, .message m⟩).2.2 ∧
    ocrFailureReply ≠ categorizationFailureReply ∧
    (handler env d ⟨.POST, .message m⟩).1
        = ⟨200, RespBody.statusMsg "OCR failed"⟩ ∧
    (handler env d ⟨.POST, .message m⟩).2.1 = d := by
  have hie : photos.isEmpty = false := by
    cases photos with
    | nil => exact absurd rfl hne
    | cons a l => rfl
  have hocrres : processReceiptOCR env
      = (⟨none, none⟩, [Effect.visionOcr]) := by
    unfold processReceiptOCR
    rw [hocr]
    rfl
  have htr : handler env d ⟨.POST, .message m⟩ =
      (⟨200, RespBody.statusMsg "OCR failed"⟩, d,
        [Effect.sendMessage m.chatId ("📸 Processing your receipt" ++
            (if (m.caption.getD "") ≠ "" then " with notes" else "")
              ++ "..."),
          Effect.telegramGetFile, Effect.visionOcr,
          Effect.sendMessage m.chatId ocrFailureReply]) := by
    show handlePost env d m = _
    unfold handlePost
    rw [if_neg (by intro hcon; rw [hphoto] at hcon; cases hcon.2), htext]
    dsimp only [Option.getD]
    rw [if_neg (not_not_intro hauth),
      if_neg (by decide), if_neg (by decide), if_neg (by decide),
      if_neg (by decide), if_neg (by decide), hphoto]
    dsimp only
    rw [if_neg (by intro hcon; rw [hie] at hcon; cases hcon)]
    unfold photoBranch
    dsimp only
    rw [if_neg (not_not_intro hfile), hocrres]
    rfl
  refine ⟨?_, ?_, by decide, ?_, ?_⟩
  · rw [htr]
    rfl
  · rw [htr]
    simp
  · rw [htr]
  · rw [htr]

/-- C3 witness: the theorem applied to a concrete authorized photo
message in an environment whose OCR detects no text. -/
theorem c3_ocr_no_text_witness :
    ((handler exEnv exDoc
        ⟨.POST, .message { chatId := "1", photo := some ["f1"] }⟩).2.2).any
          isCategorizeOrUpload = false ∧
    Effect.sendMessage "1" ocrFailureReply
        ∈ (handler exEnv exDoc
            ⟨.POST, .message { chatId := "1", photo := some ["f1"] }⟩).2.2 ∧
    ocrFailureReply ≠ categorizationFailureReply ∧
    (handler exEnv exDoc
        ⟨.POST, .message { chatId := "1", photo := some ["f1"] }⟩).1
      = ⟨200, RespBody.statusMsg "OCR failed"⟩ ∧
    (handler exEnv exDoc
        ⟨.POST, .message { chatId := "1", photo := some ["f1"] }⟩).2.1
      = exDoc :=
  c3_ocr_no_text exEnv exDoc { chatId := "1", photo := some ["f1"] }
    ["f1"] (by decide) rfl rfl (by decide) rfl rfl

end Webhook
